import Mathlib

/-
Shallow embedding of src/object_condition_checker.py.

Python values that can appear as a condition's stored value or as an
object attribute are modelled by `PyVal`.  Python floats are modelled by
exact rationals: every float literal reaching this library comes from
`float(s)` on a decimal string, which we parse exactly; IEEE-754
rounding is outside the model and no claim depends on it.
Python `datetime.date`, `datetime.time`, `datetime.datetime` are
modelled by records of their calendar fields.
-/

set_option autoImplicit false

/-- Calendar date, as Python `datetime.date` (year, month, day). -/
structure PyDate where
  year : Int
  month : Nat
  day : Nat
  deriving DecidableEq, Repr

/-- Time of day, as Python `datetime.time`. -/
structure PyTime where
  hour : Nat
  minute : Nat
  second : Nat
  microsecond : Nat
  deriving DecidableEq, Repr

/-- Date and time, as Python `datetime.datetime` (naive, no tzinfo). -/
structure PyDatetime where
  year : Int
  month : Nat
  day : Nat
  hour : Nat
  minute : Nat
  second : Nat
  microsecond : Nat
  deriving DecidableEq, Repr

/-- The `.date()` method of a Python datetime. -/
def PyDatetime.date (dt : PyDatetime) : PyDate :=
  ⟨dt.year, dt.month, dt.day⟩

/-- The `.time()` method of a Python datetime. -/
def PyDatetime.time (dt : PyDatetime) : PyTime :=
  ⟨dt.hour, dt.minute, dt.second, dt.microsecond⟩

/-- A Python float, modelled as an exact fraction `num / den` with a
positive denominator (every float reaching this library comes from
`float(s)` on a decimal string, giving a power-of-ten denominator;
IEEE-754 rounding is outside the model).  Fractions are kept
unnormalized and compared by cross-multiplication. -/
structure PyFloat where
  num : Int
  den : Nat
  deriving DecidableEq, Repr

/-- Runtime type tags for the Python values the checker handles. -/
inductive PyType where
  | str
  | int
  | float
  | date
  | time
  | datetime
  deriving DecidableEq, Repr

/-- A Python value, restricted to the types the checker handles. -/
inductive PyVal where
  | str (s : String)
  | int (n : Int)
  | float (f : PyFloat)
  | date (d : PyDate)
  | time (t : PyTime)
  | datetime (dt : PyDatetime)
  deriving DecidableEq, Repr

/-- The runtime type of a value, `type(v)` in Python. -/
def pyTypeOf : PyVal → PyType
  | .str _ => .str
  | .int _ => .int
  | .float _ => .float
  | .date _ => .date
  | .time _ => .time
  | .datetime _ => .datetime

/-- Python `isinstance(v, t)` on the modelled types.  It is
subclass-tolerant: `datetime.datetime` is a subclass of `datetime.date`,
so a datetime instance passes an `isinstance(_, date)` check.  (Python
`bool <: int` is outside the model: `PyVal` has no bool.) -/
def isinstanceOf (v : PyVal) (t : PyType) : Bool :=
  match pyTypeOf v, t with
  | .datetime, .date => true
  | a, b => a == b

/-- Three-way comparison on `Int` written with decidable tests. -/
def cmpInt (a b : Int) : Ordering :=
  if a < b then .lt else if a = b then .eq else .gt

/-- Three-way comparison on `Nat`. -/
def cmpNat (a b : Nat) : Ordering :=
  if a < b then .lt else if a = b then .eq else .gt

/-- Three-way comparison of fractions by cross-multiplication (both
denominators positive). -/
def cmpFloat (a b : PyFloat) : Ordering :=
  cmpInt (a.num * (b.den : Int)) (b.num * (a.den : Int))

/-- Numeric equality of fractions by cross-multiplication. -/
def eqFloat (a b : PyFloat) : Bool :=
  a.num * (b.den : Int) == b.num * (a.den : Int)

/-- Three-way comparison on `String` (code-point lexicographic, as
Python string comparison). -/
def cmpStr (a b : String) : Ordering :=
  if a < b then .lt else if a = b then .eq else .gt

/-- Python date ordering: lexicographic on (year, month, day). -/
def cmpDate (a b : PyDate) : Ordering :=
  (cmpInt a.year b.year).then ((cmpNat a.month b.month).then (cmpNat a.day b.day))

/-- Python time ordering: lexicographic on fields. -/
def cmpTime (a b : PyTime) : Ordering :=
  (cmpNat a.hour b.hour).then ((cmpNat a.minute b.minute).then
    ((cmpNat a.second b.second).then (cmpNat a.microsecond b.microsecond)))

/-- Python datetime ordering: lexicographic on all fields. -/
def cmpDatetime (a b : PyDatetime) : Ordering :=
  (cmpInt a.year b.year).then ((cmpNat a.month b.month).then
    ((cmpNat a.day b.day).then ((cmpNat a.hour b.hour).then
      ((cmpNat a.minute b.minute).then ((cmpNat a.second b.second).then
        (cmpNat a.microsecond b.microsecond))))))

/-- Errors raised by the Python code, one constructor per raise site
(Python collapses several of these into `ValueError` / `TypeError` /
`KeyError` / `IndexError`; the constructor records which site fires). -/
inductive PyErr where
  | invalidValueType
  | unsupportedOperator
  | unsupportedOperatorForType
  | invalidIntValue
  | invalidFloatValue
  | unrecognizedDateTimeFormat
  | invalidIsoFormat
  | missingAttribute
  | typeMismatch
  | comparisonTypeError
  | unknownOperator
  | indexError
  | notSubscriptable
  | unsupportedBooleanOperator
  | keyError (k : String)
  | jsonDecodeError
  deriving DecidableEq, Repr

deriving instance DecidableEq for Except

/-- Python `==` between modelled values.  Cross-type equality is `False`
(including datetime vs date, which CPython defines as never equal);
int/float mixed equality is numeric. -/
def pyEq : PyVal → PyVal → Bool
  | .str a, .str b => a == b
  | .int a, .int b => a == b
  | .float a, .float b => eqFloat a b
  | .int a, .float b => eqFloat ⟨a, 1⟩ b
  | .float a, .int b => eqFloat a ⟨b, 1⟩
  | .date a, .date b => a == b
  | .time a, .time b => a == b
  | .datetime a, .datetime b => a == b
  | _, _ => false

/-- Python ordering comparison between modelled values: same-type
values compare by their natural order; datetime vs date ordering raises
`TypeError` in CPython (modelled as `comparisonTypeError`), as does any
other cross-type ordering except int/float. -/
def pyCmp : PyVal → PyVal → Except PyErr Ordering
  | .str a, .str b => .ok (cmpStr a b)
  | .int a, .int b => .ok (cmpInt a b)
  | .float a, .float b => .ok (cmpFloat a b)
  | .int a, .float b => .ok (cmpFloat ⟨a, 1⟩ b)
  | .float a, .int b => .ok (cmpFloat a ⟨b, 1⟩)
  | .date a, .date b => .ok (cmpDate a b)
  | .time a, .time b => .ok (cmpTime a b)
  | .datetime a, .datetime b => .ok (cmpDatetime a b)
  | _, _ => .error .comparisonTypeError

/-- Python `value.replace(".", "", 1)` on the character list: remove the
first occurrence of a dot, if any. -/
def removeFirstDot : List Char → List Char
  | [] => []
  | c :: rest => if c = '.' then rest else c :: removeFirstDot rest

/-- Python `s.isdigit()` (ASCII fragment): true iff the string is
nonempty and all characters are decimal digits. -/
def isDigitString (s : List Char) : Bool :=
  !s.isEmpty && s.all Char.isDigit

/-- Numeric value of a list of decimal digit characters (most
significant first); non-digit characters contribute via their code
point but only digit lists are ever passed. -/
def digitsVal (s : List Char) : Nat :=
  s.foldl (fun acc c => acc * 10 + (c.toNat - 48)) 0

/-- Exact value of a decimal string made of digits with at most one
dot, e.g. "17.25"; this is what `float(value)` computes on such input
(up to IEEE rounding, outside the model). -/
def decimalVal (s : List Char) : PyFloat :=
  let intPart := s.takeWhile (fun c => c ≠ '.')
  let rest := s.dropWhile (fun c => c ≠ '.')
  let frac := rest.drop 1
  ⟨(digitsVal intPart * 10 ^ frac.length + digitsVal frac : Nat), 10 ^ frac.length⟩

/-- Proleptic Gregorian date for a count of days since 1970-01-01
(Howard Hinnant's civil-from-days algorithm, written with flooring
division). -/
def civilFromDays (z0 : Int) : PyDate :=
  let z : Int := z0 + 719468
  let era : Int := z.fdiv 146097
  let doe : Nat := (z - era * 146097).toNat
  let yoe : Nat := (doe - doe / 1460 + doe / 36524 - doe / 146096) / 365
  let y : Int := (yoe : Int) + era * 400
  let doy : Nat := doe - (365 * yoe + yoe / 4 - yoe / 100)
  let mp : Nat := (5 * doy + 2) / 153
  let d : Nat := doy - (153 * mp + 2) / 5 + 1
  let m : Nat := if mp < 10 then mp + 3 else mp - 9
  ⟨(if m ≤ 2 then y + 1 else y), m, d⟩

/-- Python `datetime.fromtimestamp(ts)`: convert seconds since the Unix
epoch to local calendar date-time.  The local timezone is modelled as a
fixed offset `tzOffset` in seconds added to the timestamp (CPython asks
the OS; a constant offset captures every concrete locale without DST
transitions).  Fractional seconds become microseconds; CPython rounds
via float arithmetic, the model truncates, which agrees on all inputs
with at most six fractional digits. -/
def fromtimestamp (tzOffset : Int) (ts : PyFloat) : PyDatetime :=
  let totalMicro : Int := (ts.num * 1000000).fdiv (ts.den : Int) + tzOffset * 1000000
  let micro : Nat := (totalMicro.emod 1000000).toNat
  let secs : Int := totalMicro.fdiv 1000000
  let days : Int := secs.fdiv 86400
  let sod : Nat := (secs.emod 86400).toNat
  let d := civilFromDays days
  ⟨d.year, d.month, d.day, sod / 3600, sod % 3600 / 60, sod % 60, micro⟩

/-- Gregorian leap-year test. -/
def isLeapYear (y : Int) : Bool :=
  y % 4 == 0 && (y % 100 != 0 || y % 400 == 0)

/-- Number of days in a month. -/
def daysInMonth (y : Int) (m : Nat) : Nat :=
  if m = 2 then (if isLeapYear y then 29 else 28)
  else if m = 4 ∨ m = 6 ∨ m = 9 ∨ m = 11 then 30 else 31

/-- Microseconds denoted by one to six fractional-second digits. -/
def fracMicro (frac : List Char) : Nat :=
  digitsVal frac * 10 ^ (6 - frac.length)

/-- Parse the time-of-day part of an ISO string: `HH:MM`, `HH:MM:SS` or
`HH:MM:SS.ffffff` (one to six fractional digits). -/
def parseTimePart : List Char → Except PyErr PyTime
  | [h1, h2, ':', m1, m2] =>
    if h1.isDigit && h2.isDigit && m1.isDigit && m2.isDigit then
      let h := digitsVal [h1, h2]
      let mi := digitsVal [m1, m2]
      if h < 24 ∧ mi < 60 then .ok ⟨h, mi, 0, 0⟩ else .error .invalidIsoFormat
    else .error .invalidIsoFormat
  | [h1, h2, ':', m1, m2, ':', s1, s2] =>
    if h1.isDigit && h2.isDigit && m1.isDigit && m2.isDigit && s1.isDigit && s2.isDigit then
      let h := digitsVal [h1, h2]
      let mi := digitsVal [m1, m2]
      let se := digitsVal [s1, s2]
      if h < 24 ∧ mi < 60 ∧ se < 60 then .ok ⟨h, mi, se, 0⟩ else .error .invalidIsoFormat
    else .error .invalidIsoFormat
  | h1 :: h2 :: ':' :: m1 :: m2 :: ':' :: s1 :: s2 :: '.' :: frac =>
    if h1.isDigit && h2.isDigit && m1.isDigit && m2.isDigit && s1.isDigit && s2.isDigit
        && isDigitString frac && frac.length ≤ 6 then
      let h := digitsVal [h1, h2]
      let mi := digitsVal [m1, m2]
      let se := digitsVal [s1, s2]
      if h < 24 ∧ mi < 60 ∧ se < 60 then .ok ⟨h, mi, se, fracMicro frac⟩
      else .error .invalidIsoFormat
    else .error .invalidIsoFormat
  | _ => .error .invalidIsoFormat

/-- Python `datetime.fromisoformat`: `YYYY-MM-DD` optionally followed by
a one-character separator and a time part.  Field ranges are validated
as CPython does (month 1-12, day fits the month, hour below 24, minute
and second below 60). -/
def fromisoformat (s : String) : Except PyErr PyDatetime :=
  match s.data with
  | y1 :: y2 :: y3 :: y4 :: '-' :: m1 :: m2 :: '-' :: d1 :: d2 :: rest =>
    if y1.isDigit && y2.isDigit && y3.isDigit && y4.isDigit
        && m1.isDigit && m2.isDigit && d1.isDigit && d2.isDigit then
      let y : Int := (digitsVal [y1, y2, y3, y4] : Int)
      let mo := digitsVal [m1, m2]
      let da := digitsVal [d1, d2]
      if 1 ≤ mo ∧ mo ≤ 12 ∧ 1 ≤ da ∧ da ≤ daysInMonth y mo then
        match rest with
        | [] => .ok ⟨y, mo, da, 0, 0, 0, 0⟩
        | _sep :: trest =>
          match parseTimePart trest with
          | .error e => .error e
          | .ok t => .ok ⟨y, mo, da, t.hour, t.minute, t.second, t.microsecond⟩
      else .error .invalidIsoFormat
    else .error .invalidIsoFormat
  | _ => .error .invalidIsoFormat

/-- The static method `ObjectCondition.parse_datetime` (source lines
164-180).  Branch one: the string with its first dot removed is all
digits, so it is read as a Unix timestamp.  Branch two: it contains a
dash and either contains a `T` or is exactly ten characters long, so it
is read as ISO-8601, a bare date being extended with `T00:00:00`.
Anything else raises `ValueError` (`unrecognizedDateTimeFormat`). -/
def parse_datetime (tzOffset : Int) (value : String) : Except PyErr PyDatetime :=
  if isDigitString (removeFirstDot value.data) then
    .ok (fromtimestamp tzOffset (decimalVal value.data))
  else if '-' ∈ value.data ∧ ('T' ∈ value.data ∨ value.data.length = 10) then
    if value.data.length = 10 then fromisoformat (value ++ "T00:00:00")
    else fromisoformat value
  else .error .unrecognizedDateTimeFormat

/-- Python `int(s)` on a string: optional sign then digits (whitespace
and underscore tolerance of CPython are outside the model). -/
def pyIntOfString (s : String) : Option Int :=
  match s.data with
  | '-' :: rest => if isDigitString rest then some (-(digitsVal rest : Int)) else none
  | '+' :: rest => if isDigitString rest then some ((digitsVal rest : Int)) else none
  | rest => if isDigitString rest then some ((digitsVal rest : Int)) else none

/-- Python `float(s)` on a string: optional sign then digits with at
most one dot, parsed exactly (exponents, inf and nan are outside the
model). -/
def pyFloatOfString (s : String) : Option PyFloat :=
  match s.data with
  | '-' :: rest =>
    if isDigitString (removeFirstDot rest) then
      some ⟨-(decimalVal rest).num, (decimalVal rest).den⟩
    else none
  | '+' :: rest => if isDigitString (removeFirstDot rest) then some (decimalVal rest) else none
  | rest => if isDigitString (removeFirstDot rest) then some (decimalVal rest) else none

/-- Decimal rendering of a natural number left-padded with zeros to a
given width, as Python `%02d` style formatting. -/
def padNat (width n : Nat) : String :=
  let s := toString n
  String.mk (List.replicate (width - s.length) '0') ++ s

/-- Python `str(date)`: `YYYY-MM-DD`, year zero-padded to four digits
(negative years cannot be produced by this library). -/
def PyDate.pyStr (d : PyDate) : String :=
  padNat 4 d.year.toNat ++ "-" ++ padNat 2 d.month ++ "-" ++ padNat 2 d.day

/-- Python `str(time)`: `HH:MM:SS`, with `.ffffff` appended only when
the microsecond field is nonzero. -/
def PyTime.pyStr (t : PyTime) : String :=
  padNat 2 t.hour ++ ":" ++ padNat 2 t.minute ++ ":" ++ padNat 2 t.second ++
    (if t.microsecond = 0 then "" else "." ++ padNat 6 t.microsecond)

/-- Python `str(datetime)`: the date part and the time part joined by a
single space (not a `T`). -/
def PyDatetime.pyStr (dt : PyDatetime) : String :=
  PyDate.pyStr dt.date ++ " " ++ PyTime.pyStr dt.time

/-- Decimal digits of the fraction `r / den`, long division with fuel,
stopping at zero remainder. -/
def fracDigitsAux : Nat → Nat → Nat → List Char
  | 0, _, _ => []
  | fuel + 1, r, den =>
    if r = 0 then []
    else Char.ofNat (48 + r * 10 / den) :: fracDigitsAux fuel (r * 10 % den) den

/-- Python `str(float)` modelled on exact decimal fractions: sign,
integer part, a dot and the fractional digits ("5.0" when the value is
integral).  The shortest-repr behaviour of IEEE floats is outside the
model; on the decimal values produced by `pyFloatOfString` this agrees
with CPython. -/
def floatStr (f : PyFloat) : String :=
  let sign := if f.num < 0 then "-" else ""
  let a := f.num.natAbs
  let ip := a / f.den
  let ds := fracDigitsAux 30 (a % f.den) f.den
  sign ++ toString ip ++ "." ++ (if ds.isEmpty then "0" else String.mk ds)

/-- Python `str(v)` for a modelled value. -/
def PyVal.pyStr : PyVal → String
  | .str s => s
  | .int n => toString n
  | .float q => floatStr q
  | .date d => d.pyStr
  | .time t => t.pyStr
  | .datetime dt => dt.pyStr

/-- The class attribute `_accepted_comp_operators_strings`. -/
def accepted_comp_operators_strings : List String :=
  ["==", "!=", "in", "not in"]

/-- The class attribute `_accepted_comp_operators_numbers`. -/
def accepted_comp_operators_numbers : List String :=
  ["<", ">", "<=", ">=", "==", "!="]

/-- The class attribute `_accepted_comp_operators_lists`. -/
def accepted_comp_operators_lists : List String :=
  ["in", "not in"]

/-- The class attribute `_accepted_comp_operators`: the set union of
the three operator tuples (membership is all that is ever used of it,
so the order CPython's `set` happens to produce is irrelevant). -/
def accepted_comp_operators : List String :=
  ["==", "!=", "in", "not in", "<", ">", "<=", ">="]

/-- The class attribute `_accepted_value_types`. -/
def accepted_value_types : List String :=
  ["str", "int", "float", "date", "datetime", "time"]

/-- The `ObjectCondition` instance state: the four fields the
constructor stores. -/
structure ObjectCondition where
  attribute_name : String
  comp_operator : String
  attribute_value : PyVal
  value_type : String
  deriving DecidableEq, Repr

/-- The `ObjectCondition.__init__` constructor (source lines 24-77):
value-type whitelist check, operator-union check, then the per-type
operator check and value conversion.  Python's `match` on string
literals is an equality dispatch, written here as an if-chain; the
local timezone used by `parse_datetime`'s timestamp branch is the
`tzOffset` parameter. -/
def ObjectCondition.init (tzOffset : Int) (attribute_name comp_operator : String)
    (attribute_value : String) (value_type : String) : Except PyErr ObjectCondition :=
  if value_type ∉ accepted_value_types then .error .invalidValueType
  else if comp_operator ∉ accepted_comp_operators then .error .unsupportedOperator
  else if value_type = "str" then
    if comp_operator ∉ accepted_comp_operators_strings then .error .unsupportedOperatorForType
    else .ok ⟨attribute_name, comp_operator, .str attribute_value, value_type⟩
  else if value_type = "int" then
    if comp_operator ∉ accepted_comp_operators_numbers then .error .unsupportedOperatorForType
    else match pyIntOfString attribute_value with
      | none => .error .invalidIntValue
      | some n => .ok ⟨attribute_name, comp_operator, .int n, value_type⟩
  else if value_type = "float" then
    if comp_operator ∉ accepted_comp_operators_numbers then .error .unsupportedOperatorForType
    else match pyFloatOfString attribute_value with
      | none => .error .invalidFloatValue
      | some q => .ok ⟨attribute_name, comp_operator, .float q, value_type⟩
  else if value_type = "date" then
    if comp_operator ∉ accepted_comp_operators_numbers then .error .unsupportedOperatorForType
    else match parse_datetime tzOffset attribute_value with
      | .error e => .error e
      | .ok dt => .ok ⟨attribute_name, comp_operator, .date dt.date, value_type⟩
  else if value_type = "time" then
    if comp_operator ∉ accepted_comp_operators_numbers then .error .unsupportedOperatorForType
    else match parse_datetime tzOffset attribute_value with
      | .error e => .error e
      | .ok dt => .ok ⟨attribute_name, comp_operator, .time dt.time, value_type⟩
  else if value_type = "datetime" then
    if comp_operator ∉ accepted_comp_operators_numbers then .error .unsupportedOperatorForType
    else match parse_datetime tzOffset attribute_value with
      | .error e => .error e
      | .ok dt => .ok ⟨attribute_name, comp_operator, .datetime dt, value_type⟩
  else .error .invalidValueType

/-- The evaluated object: an attribute bag, read with `getattr`. -/
abbrev Obj := List (String × PyVal)

/-- Python `getattr(obj, name)` on the attribute bag; `none` models
`hasattr` being false. -/
def getattr : Obj → String → Option PyVal
  | [], _ => none
  | (k, v) :: rest, name => if k = name then some v else getattr rest name

/-- `ObjectCondition.is_true` (source lines 79-120): attribute
presence, the `isinstance` type check against the stored value's type,
then the operator dispatch.  The `in` / `not in` branches test
membership of the attribute value in the class attribute
`_accepted_comp_operators_lists`, the tuple `("in", "not in")` — the
stored value is not consulted. -/
def ObjectCondition.is_true (c : ObjectCondition) (obj : Obj) : Except PyErr Bool :=
  match getattr obj c.attribute_name with
  | none => .error .missingAttribute
  | some test_value =>
    if ¬ isinstanceOf test_value (pyTypeOf c.attribute_value) then .error .typeMismatch
    else if c.comp_operator = "in" then
      .ok (pyEq test_value (.str "in") || pyEq test_value (.str "not in"))
    else if c.comp_operator = "not in" then
      .ok (!(pyEq test_value (.str "in") || pyEq test_value (.str "not in")))
    else if c.comp_operator = "<" then
      (pyCmp test_value c.attribute_value).map (fun o => o == Ordering.lt)
    else if c.comp_operator = ">" then
      (pyCmp test_value c.attribute_value).map (fun o => o == Ordering.gt)
    else if c.comp_operator = "<=" then
      (pyCmp test_value c.attribute_value).map (fun o => !(o == Ordering.gt))
    else if c.comp_operator = ">=" then
      (pyCmp test_value c.attribute_value).map (fun o => !(o == Ordering.lt))
    else if c.comp_operator = "==" then
      .ok (pyEq test_value c.attribute_value)
    else if c.comp_operator = "!=" then
      .ok (!pyEq test_value c.attribute_value)
    else .error .unknownOperator

/-- Plain data as produced by `dict()` and consumed by `from_json`:
strings, dictionaries and lists (every scalar the serializers emit is a
string, so no other leaf kind is needed). -/
inductive JData where
  | str (s : String)
  | dict (fields : List (String × JData))
  | list (xs : List JData)

/-- Dictionary lookup, `data[key]` / `key in data`; `none` is a missing
key. -/
def lookupJ : List (String × JData) → String → Option JData
  | [], _ => none
  | (k, v) :: rest, key => if k = key then some v else lookupJ rest key

/-- `ObjectCondition.dict` (source lines 122-134): the four fields with
the stored value rendered through `str()`. -/
def ObjectCondition.dict (c : ObjectCondition) : List (String × JData) :=
  [("attribute_name", .str c.attribute_name),
   ("comp_operator", .str c.comp_operator),
   ("attribute_value", .str c.attribute_value.pyStr),
   ("value_type", .str c.value_type)]

/-- `ObjectCondition.from_json` (source lines 144-162) on an already
decoded dictionary (the JSON-text entry point is `json.loads` followed
by this).  The keyword arguments are read left to right, so the first
missing key of the four raises its `KeyError`.  Serialized data always
holds strings in these fields; a non-string is outside the model and
mapped to a decode failure. -/
def ObjectCondition.from_json (tzOffset : Int) (fields : List (String × JData)) :
    Except PyErr ObjectCondition :=
  match lookupJ fields "attribute_name" with
  | none => .error (.keyError "attribute_name")
  | some an =>
    match lookupJ fields "comp_operator" with
    | none => .error (.keyError "comp_operator")
    | some co =>
      match lookupJ fields "attribute_value" with
      | none => .error (.keyError "attribute_value")
      | some av =>
        match lookupJ fields "value_type" with
        | none => .error (.keyError "value_type")
        | some vt =>
          match an, co, av, vt with
          | .str an, .str co, .str av, .str vt =>
            ObjectCondition.init tzOffset an co av vt
          | _, _, _, _ => .error .jsonDecodeError

/-- The class attribute `ConditionList._accepted_boolean_operators`. -/
def accepted_boolean_operators : List String :=
  ["and", "or"]

/-- A tree node: an `ObjectCondition` leaf or a `ConditionList` with
its boolean operator and ordered children.  (The Python
`ConditionList.__init__` child-type check is enforced by this type.) -/
inductive CNode where
  | leaf (c : ObjectCondition)
  | tree (operator : String) (conditions : List CNode)

mutual

/-- Decidable equality for tree nodes (the nested child list blocks
automatic derivation). -/
def decEqCNode : (a b : CNode) → Decidable (a = b)
  | .leaf c, .leaf d =>
    if h : c = d then isTrue (by rw [h])
    else isFalse (fun q => h (by cases q; rfl))
  | .leaf _, .tree _ _ => isFalse (fun q => CNode.noConfusion q)
  | .tree _ _, .leaf _ => isFalse (fun q => CNode.noConfusion q)
  | .tree op l, .tree op2 l2 =>
    if h : op = op2 then
      match decEqCNodeList l l2 with
      | isTrue h2 => isTrue (by rw [h, h2])
      | isFalse h2 => isFalse (fun q => h2 (by cases q; rfl))
    else isFalse (fun q => h (by cases q; rfl))

/-- Decidable equality for lists of tree nodes. -/
def decEqCNodeList : (a b : List CNode) → Decidable (a = b)
  | [], [] => isTrue rfl
  | [], _ :: _ => isFalse (fun q => List.noConfusion q)
  | _ :: _, [] => isFalse (fun q => List.noConfusion q)
  | x :: xs, y :: ys =>
    match decEqCNode x y with
    | isTrue h1 =>
      match decEqCNodeList xs ys with
      | isTrue h2 => isTrue (by rw [h1, h2])
      | isFalse h2 => isFalse (fun q => h2 (by cases q; rfl))
    | isFalse h1 => isFalse (fun q => h1 (by cases q; rfl))

end

instance : DecidableEq CNode := decEqCNode

/-- Python `s.lower()` character by character (ASCII fragment). -/
def strToLower (s : String) : String :=
  String.mk (s.data.map Char.toLower)

/-- `ConditionList.__init__` (source lines 196-212): reject an operator
outside `("and", "or")`, then store `operator.lower()` and the
children. -/
def ConditionList.init (conditions : List CNode) (operator : String) : Except PyErr CNode :=
  if operator ∉ accepted_boolean_operators then .error .unsupportedBooleanOperator
  else .ok (.tree (strToLower operator) conditions)

mutual

/-- `ConditionList.is_true` (source lines 214-235) for a tree node, and
`ObjectCondition.is_true` for a leaf.  The tree case first evaluates
every child in order into `result_list`; the seed line
`final_result = result_list[0][0]` then raises `IndexError` on an empty
list and otherwise `TypeError` (a bool is not subscriptable), so the
fold over the remaining results on lines 227-235 is dead code. -/
def CNode.is_true : CNode → Obj → Except PyErr Bool
  | .leaf c, obj => ObjectCondition.is_true c obj
  | .tree _operator conditions, obj =>
    match evalChildren conditions obj with
    | .error e => .error e
    | .ok [] => .error .indexError
    | .ok (_ :: _) => .error .notSubscriptable

/-- The `result_list` loop of `ConditionList.is_true`: children are
evaluated left to right and the first failure propagates. -/
def evalChildren : List CNode → Obj → Except PyErr (List Bool)
  | [], _ => .ok []
  | c :: rest, obj =>
    match CNode.is_true c obj with
    | .error e => .error e
    | .ok b =>
      match evalChildren rest obj with
      | .error e => .error e
      | .ok bs => .ok (b :: bs)

end

mutual

/-- `ConditionList.dict` (source lines 237-246). -/
def CNode.dict : CNode → JData
  | .leaf c => .dict (ObjectCondition.dict c)
  | .tree operator conditions =>
    .dict [("operator", .str operator), ("conditions", .list (dictChildren conditions))]

/-- The per-child serialization loop of `ConditionList.dict`. -/
def dictChildren : List CNode → List JData
  | [] => []
  | c :: rest => CNode.dict c :: dictChildren rest

end

/-- The `data.get("operator", "and")` read of `ConditionList.from_json`:
a missing key silently becomes `"and"`; a non-string value would fail
the later `("and", "or")` membership test exactly as the empty string
does. -/
def operatorOf (fields : List (String × JData)) : String :=
  match lookupJ fields "operator" with
  | some (.str s) => s
  | some _ => ""
  | none => "and"

mutual

/-- Scan for the `"conditions"` entry of `data.get("conditions", [])`
and decode its list of children; no entry means the `.get` default
`[]`.  Iterating a non-list value is outside the model and mapped to a
decode failure. -/
def treeChildren (tzOffset : Int) : List (String × JData) → Except PyErr (List CNode)
  | [] => .ok []
  | (k, v) :: rest =>
    if k = "conditions" then
      match v with
      | .list xs => fromJsonChildren tzOffset xs
      | _ => .error .jsonDecodeError
    else treeChildren tzOffset rest

/-- The child comprehension of `ConditionList.from_json`: entries are
decoded left to right and the first failure propagates. -/
def fromJsonChildren (tzOffset : Int) : List JData → Except PyErr (List CNode)
  | [] => .ok []
  | x :: rest =>
    match fromJsonChild tzOffset x with
    | .error e => .error e
    | .ok c =>
      match fromJsonChildren tzOffset rest with
      | .error e => .error e
      | .ok cs => .ok (c :: cs)

/-- The dispatch of the child comprehension: a dictionary with an
`"attribute_name"` key decodes as a leaf, any other dictionary recurses
as a nested tree (the body of `ConditionList.from_json`, inlined here
to keep the recursion structural); a non-dictionary child goes through
`json.loads` or raises in Python and is mapped to a decode failure. -/
def fromJsonChild (tzOffset : Int) : JData → Except PyErr CNode
  | .dict fields =>
    if (lookupJ fields "attribute_name").isSome then
      match ObjectCondition.from_json tzOffset fields with
      | .error e => .error e
      | .ok c => .ok (.leaf c)
    else
      match treeChildren tzOffset fields with
      | .error e => .error e
      | .ok conds => ConditionList.init conds (operatorOf fields)
  | .str _ => .error .jsonDecodeError
  | .list _ => .error .jsonDecodeError

end

/-- `ConditionList.from_json` (source lines 256-276) on an already
decoded dictionary: children come from `data.get("conditions", [])` —
a missing key silently becomes the empty list — and the reconstructed
list is passed to the constructor with the operator read by
`data.get("operator", "and")`. -/
def ConditionList.from_json (tzOffset : Int) (fields : List (String × JData)) :
    Except PyErr CNode :=
  match treeChildren tzOffset fields with
  | .error e => .error e
  | .ok conds => ConditionList.init conds (operatorOf fields)

/-- Modelled from the spec: the operator legality table of §3 — string
category gets `==, !=, in, not in`; the numeric/orderable category
(integer, float, date, datetime, time) gets `<, >, <=, >=, ==, !=` —
with the spec's `string`/`integer` category names mapped to the
source's `str`/`int` tags.  Used to compare the source constructor
against the table. -/
def specLegalPair (value_type comp_operator : String) : Prop :=
  (value_type = "str" ∧ comp_operator ∈ accepted_comp_operators_strings) ∨
  (value_type ∈ ["int", "float", "date", "datetime", "time"] ∧
    comp_operator ∈ accepted_comp_operators_numbers)

instance (vt op : String) : Decidable (specLegalPair vt op) := by
  unfold specLegalPair
  infer_instance

/-
Helper lemmas shared by the claim theorems.
-/

/-- An operator dispatch branch built from `pyCmp` can only fail with
the comparison error, never with the explicit type-mismatch error. -/
theorem pyCmp_map_ne_typeMismatch (a b : PyVal) (f : Ordering → Bool) :
    (pyCmp a b).map f ≠ Except.error PyErr.typeMismatch := by
  cases a <;> cases b <;> simp [pyCmp, Except.map]

/-- Leaf evaluation reads the object only through `getattr`. -/
theorem leafEvalExt (c : ObjectCondition) (o o' : Obj)
    (h : ∀ a, getattr o a = getattr o' a) :
    ObjectCondition.is_true c o = ObjectCondition.is_true c o' := by
  unfold ObjectCondition.is_true
  rw [h c.attribute_name]

mutual

/-- Tree evaluation reads the object only through `getattr`. -/
theorem nodeEvalExt : ∀ (t : CNode) (o o' : Obj),
    (∀ a, getattr o a = getattr o' a) → CNode.is_true t o = CNode.is_true t o'
  | .leaf c, o, o', h => by
    simp only [CNode.is_true]
    exact leafEvalExt c o o' h
  | .tree op l, o, o', h => by
    simp only [CNode.is_true]
    rw [evalChildren_ext l o o' h]

/-- Child-list evaluation reads the object only through `getattr`. -/
theorem evalChildren_ext : ∀ (l : List CNode) (o o' : Obj),
    (∀ a, getattr o a = getattr o' a) → evalChildren l o = evalChildren l o'
  | [], _, _, _ => rfl
  | c :: rest, o, o', h => by
    simp only [evalChildren]
    rw [nodeEvalExt c o o' h, evalChildren_ext rest o o' h]

end

/-- A dictionary without a `"conditions"` key decodes to the empty
child list. -/
theorem treeChildren_of_no_conditions (tz : Int) :
    ∀ fields, lookupJ fields "conditions" = none → treeChildren tz fields = .ok [] := by
  intro fields
  induction fields with
  | nil => intro _; rfl
  | cons p rest ih =>
    obtain ⟨k, v⟩ := p
    intro h
    by_cases hk : k = "conditions"
    · subst hk
      simp [lookupJ] at h
    · rw [lookupJ, if_neg hk] at h
      rw [treeChildren.eq_def]
      simp [hk, ih h]

/-
Claim theorems.
-/

/-- C1.  The claim says a nonempty `ConditionTree` folds its children's
results left to right.  The code cannot: the seed line
`final_result = result_list[0][0]` (source line 226) subscripts a bool,
so `is_true` raises `TypeError` on every tree with at least one child.
Here a two-child "or" tree whose children individually evaluate to true
and false crashes instead of returning their disjunction. -/
theorem C1_nonempty_tree_eval_crashes :
    CNode.is_true (.leaf ⟨"s", "==", .str "x", "str"⟩) [("s", .str "x")] = .ok true ∧
    CNode.is_true (.leaf ⟨"s", "!=", .str "x", "str"⟩) [("s", .str "x")] = .ok false ∧
    CNode.is_true (.tree "or" [.leaf ⟨"s", "==", .str "x", "str"⟩,
      .leaf ⟨"s", "!=", .str "x", "str"⟩]) [("s", .str "x")] = .error .notSubscriptable :=
  ⟨by decide, by decide, by decide⟩

/-- C2.  The claim says from_json of dict() output reproduces every
validly constructed Condition, including datetime- and time-typed ones.
For a datetime-typed condition the serialized value is `str(datetime)`,
which joins date and time with a space ("2022-06-01 10:30:00"); that
string has no `T` and is not 10 characters long, so `parse_datetime`
rejects it and reconstruction raises instead of yielding a node. -/
theorem C2_datetime_roundtrip_fails :
    ObjectCondition.init 0 "d" "==" "2022-06-01T10:30:00" "datetime" =
      .ok ⟨"d", "==", .datetime ⟨2022, 6, 1, 10, 30, 0, 0⟩, "datetime"⟩ ∧
    ObjectCondition.dict ⟨"d", "==", .datetime ⟨2022, 6, 1, 10, 30, 0, 0⟩, "datetime"⟩ =
      [("attribute_name", .str "d"), ("comp_operator", .str "=="),
       ("attribute_value", .str "2022-06-01 10:30:00"), ("value_type", .str "datetime")] ∧
    ObjectCondition.from_json 0
      (ObjectCondition.dict ⟨"d", "==", .datetime ⟨2022, 6, 1, 10, 30, 0, 0⟩, "datetime"⟩) =
      .error .unrecognizedDateTimeFormat :=
  ⟨by decide, rfl, by decide⟩

/-- C5.  The claim says an empty tree's `is_true` fails with an explicit
`EmptyConditionTree` error.  The code has no such check: an empty
`ConditionList` is constructible, and evaluating it reaches
`result_list[0]` on the empty result list, raising exactly the
indexing fault (`IndexError`) the claim rules out. -/
theorem C5_empty_tree_raises_index_error :
    ConditionList.init [] "and" = .ok (.tree "and" []) ∧
    CNode.is_true (.tree "and" []) [] = .error .indexError :=
  ⟨by decide, by decide⟩

/-- C3 counterexample.  A date-typed condition with operator `==`
evaluated against an object whose attribute is a datetime: the runtime
type (datetime) differs from the stored value's type (date), yet
`is_true` returns `ok false` — no `TypeMismatch` is raised, because the
`isinstance` check accepts the subclass datetime of date.  This refutes
the claimed "if and only if the runtime type does not exactly match". -/
theorem C3_counterexample_datetime_passes_date_check :
    pyTypeOf (.datetime ⟨2022, 6, 1, 0, 0, 0, 0⟩) ≠ pyTypeOf (.date ⟨2022, 6, 1⟩) ∧
    ObjectCondition.is_true ⟨"d", "==", .date ⟨2022, 6, 1⟩, "date"⟩
      [("d", .datetime ⟨2022, 6, 1, 0, 0, 0, 0⟩)] = .ok false :=
  ⟨by decide, by decide⟩

/-- C6 counterexample.  The claim's concrete instance uses the spec's
tag "integer", but the source's accepted tags are "str", "int", ...;
`Condition("age", "in", "5", value_type="integer")` therefore fails the
value-type whitelist check (`InvalidValueType`), not the operator
check (`UnsupportedOperator`). -/
theorem C6_counterexample_integer_tag :
    ObjectCondition.init 0 "age" "in" "5" "integer" = .error .invalidValueType ∧
    PyErr.invalidValueType ≠ PyErr.unsupportedOperator ∧
    PyErr.invalidValueType ≠ PyErr.unsupportedOperatorForType :=
  ⟨by decide, by decide, by decide⟩

/-- C8 counterexample.  The claim says an internal-node entry missing
its operator or children field fails with a decode error.  The code
reads both through `dict.get` with defaults: deserializing the empty
dictionary silently substitutes operator "and" and the empty child
list and succeeds. -/
theorem C8_counterexample_missing_keys_default :
    lookupJ [] "operator" = none ∧
    lookupJ ([] : List (String × JData)) "conditions" = none ∧
    ConditionList.from_json 0 [] = .ok (.tree "and" []) :=
  ⟨rfl, rfl, by decide⟩

/-- C9.  Evaluation is pure.  The source `is_true` methods assign no
field (the embedding is a function of node and object, so the node is
unchanged by evaluation), and the result depends on the object only
through its attribute values: two calls against objects whose `getattr`
agree on every name return the same result or the same failure. -/
theorem C9_eval_pure_extensional :
    ∀ (t : CNode) (o o' : Obj), (∀ a, getattr o a = getattr o' a) →
      CNode.is_true t o = CNode.is_true t o' :=
  fun t o o' h => nodeEvalExt t o o' h

/-- C9 witness: two distinct attribute bags with identical `getattr`
behaviour evaluate identically. -/
theorem C9_eval_pure_extensional_witness :
    CNode.is_true (.leaf ⟨"a", "==", .str "x", "str"⟩) [("a", .str "x"), ("a", .str "y")] =
      CNode.is_true (.leaf ⟨"a", "==", .str "x", "str"⟩) [("a", .str "x")] :=
  C9_eval_pure_extensional _ _ _ (fun a => by
    by_cases h : "a" = a <;> simp [getattr, h])

/-- C10.  For string-typed conditions with operator `in` or `not in`,
the stored comparison value does not influence evaluation: two such
conditions sharing attribute name and operator but holding arbitrary
stored values evaluate identically (same result or same failure) on
every object. -/
theorem C10_stored_value_noninterference :
    ∀ (name op v1 v2 : String) (obj : Obj) (c1 c2 : ObjectCondition),
      (op = "in" ∨ op = "not in") →
      ObjectCondition.init 0 name op v1 "str" = .ok c1 →
      ObjectCondition.init 0 name op v2 "str" = .ok c2 →
      ObjectCondition.is_true c1 obj = ObjectCondition.is_true c2 obj := by
  intro name op v1 v2 obj c1 c2 hop h1 h2
  rcases hop with rfl | rfl <;>
  · simp [ObjectCondition.init, accepted_value_types, accepted_comp_operators,
      accepted_comp_operators_strings] at h1 h2
    subst h1
    subst h2
    cases hg : getattr obj name <;>
      simp [ObjectCondition.is_true, hg, pyTypeOf, isinstanceOf]

/-- C10 witness: conditions storing "x" and "y" agree on a concrete
object. -/
theorem C10_stored_value_noninterference_witness :
    ObjectCondition.is_true ⟨"a", "in", .str "x", "str"⟩ [("a", .str "in")] =
      ObjectCondition.is_true ⟨"a", "in", .str "y", "str"⟩ [("a", .str "in")] :=
  C10_stored_value_noninterference "a" "in" "x" "y" [("a", .str "in")] _ _
    (Or.inl rfl) (by decide) (by decide)

/-- C4.  For a string-typed condition with operator `in` (resp.
`not in`) and an object whose attribute is a string, `is_true` returns
membership (resp. non-membership) of the attribute's value in the fixed
constant tuple `_accepted_comp_operators_lists = ("in", "not in")`; the
stored comparison value plays no role. -/
theorem C4_membership_fixed_list :
    ∀ (name v : String) (obj : Obj) (s : String) (c c' : ObjectCondition),
      ObjectCondition.init 0 name "in" v "str" = .ok c →
      ObjectCondition.init 0 name "not in" v "str" = .ok c' →
      getattr obj name = some (.str s) →
      ObjectCondition.is_true c obj = .ok (decide (s ∈ accepted_comp_operators_lists)) ∧
      ObjectCondition.is_true c' obj = .ok (!decide (s ∈ accepted_comp_operators_lists)) := by
  intro name v obj s c c' h1 h2 hg
  simp [ObjectCondition.init, accepted_value_types, accepted_comp_operators,
    accepted_comp_operators_strings] at h1 h2
  subst h1
  subst h2
  constructor <;>
  · simp [ObjectCondition.is_true, hg, pyTypeOf, isinstanceOf, pyEq,
      accepted_comp_operators_lists]
    by_cases e1 : s = "in" <;> by_cases e2 : s = "not in" <;> simp [e1, e2]

/-- C4 witness: the attribute value "in" is in the fixed list, so the
`in` condition is true and the `not in` condition is false, regardless
of the stored value "x". -/
theorem C4_membership_fixed_list_witness :
    ObjectCondition.is_true ⟨"a", "in", .str "x", "str"⟩ [("a", .str "in")] =
      .ok (decide ("in" ∈ accepted_comp_operators_lists)) ∧
    ObjectCondition.is_true ⟨"a", "not in", .str "x", "str"⟩ [("a", .str "in")] =
      .ok (!decide ("in" ∈ accepted_comp_operators_lists)) :=
  C4_membership_fixed_list "a" "x" [("a", .str "in")] "in" _ _ (by decide) (by decide) rfl

/-- The explicit type-check failure of `is_true` is governed by
`isinstance`, not by exact type equality: it fires exactly when the
attribute exists and fails the subclass-tolerant check. -/
theorem is_true_typeMismatch_iff (c : ObjectCondition) (obj : Obj) :
    ObjectCondition.is_true c obj = Except.error PyErr.typeMismatch ↔
      ∃ v, getattr obj c.attribute_name = some v ∧
        isinstanceOf v (pyTypeOf c.attribute_value) = false := by
  rcases hg : getattr obj c.attribute_name with _ | v
  · simp [ObjectCondition.is_true, hg]
  · simp only [ObjectCondition.is_true, hg, Option.some.injEq]
    by_cases hi : isinstanceOf v (pyTypeOf c.attribute_value) = true
    · rw [if_neg (by simp [hi])]
      constructor
      · intro h
        exfalso
        split_ifs at h <;>
          first
            | exact absurd h (by simp)
            | exact pyCmp_map_ne_typeMismatch _ _ _ h
      · rintro ⟨v', hv', hfalse⟩
        cases hv'
        exact absurd hfalse (by simp [hi])
    · rw [if_pos (by simp [hi])]
      constructor
      · intro _
        exact ⟨v, rfl, by simpa using hi⟩
      · intro _
        rfl

/-- C3 (amended).  `is_true` fails with the explicit `TypeMismatch`
check iff the attribute exists and its runtime type fails the
`isinstance` test against the stored value's type — a subclass-tolerant
test, not exact type equality.  In particular a date-typed `<=`
condition against an attribute equal to the stored date bound returns
true, while against a datetime attribute the `isinstance` check passes
(datetime subclasses date) and the failure that surfaces is the
cross-type comparison `TypeError`, not `TypeMismatch`. -/
theorem C3_amended_isinstance_check :
    (∀ (c : ObjectCondition) (obj : Obj),
        ObjectCondition.is_true c obj = .error .typeMismatch ↔
          ∃ v, getattr obj c.attribute_name = some v ∧
            isinstanceOf v (pyTypeOf c.attribute_value) = false) ∧
    (∀ b : PyDate,
        ObjectCondition.is_true ⟨"d", "<=", .date b, "date"⟩ [("d", .date b)] = .ok true) ∧
    (∀ (b : PyDate) (dt : PyDatetime),
        ObjectCondition.is_true ⟨"d", "<=", .date b, "date"⟩ [("d", .datetime dt)] =
          .error .comparisonTypeError) := by
  refine ⟨fun c obj => is_true_typeMismatch_iff c obj, ?_, ?_⟩
  · intro b
    simp [ObjectCondition.is_true, getattr, isinstanceOf, pyTypeOf, pyCmp, cmpDate,
      cmpInt, cmpNat, Ordering.then, Except.map]
    decide
  · intro b dt
    simp [ObjectCondition.is_true, getattr, isinstanceOf, pyTypeOf, pyCmp, Except.map]

/-- C8 (amended).  Leaf deserialization does fail on missing required
keys: the first missing key among attribute_name, comp_operator,
attribute_value, value_type (read in that order) raises its `KeyError`.
Internal-node deserialization does not: a missing operator key silently
becomes "and" and a missing conditions key silently becomes the empty
child list, so the empty dictionary decodes successfully. -/
theorem C8_amended_decode_behavior :
    (∀ (tz : Int) (fields : List (String × JData)),
        lookupJ fields "attribute_name" = none →
        ObjectCondition.from_json tz fields = .error (.keyError "attribute_name")) ∧
    (∀ (tz : Int) (fields : List (String × JData)) (an : JData),
        lookupJ fields "attribute_name" = some an →
        lookupJ fields "comp_operator" = none →
        ObjectCondition.from_json tz fields = .error (.keyError "comp_operator")) ∧
    (∀ (tz : Int) (fields : List (String × JData)) (an co : JData),
        lookupJ fields "attribute_name" = some an →
        lookupJ fields "comp_operator" = some co →
        lookupJ fields "attribute_value" = none →
        ObjectCondition.from_json tz fields = .error (.keyError "attribute_value")) ∧
    (∀ (tz : Int) (fields : List (String × JData)) (an co av : JData),
        lookupJ fields "attribute_name" = some an →
        lookupJ fields "comp_operator" = some co →
        lookupJ fields "attribute_value" = some av →
        lookupJ fields "value_type" = none →
        ObjectCondition.from_json tz fields = .error (.keyError "value_type")) ∧
    (∀ (tz : Int) (fields : List (String × JData)),
        lookupJ fields "operator" = none →
        lookupJ fields "conditions" = none →
        ConditionList.from_json tz fields = .ok (.tree "and" [])) := by
  refine ⟨?_, ?_, ?_, ?_, ?_⟩
  · intro tz fields h
    simp [ObjectCondition.from_json, h]
  · intro tz fields an h1 h2
    simp [ObjectCondition.from_json, h1, h2]
  · intro tz fields an co h1 h2 h3
    simp [ObjectCondition.from_json, h1, h2, h3]
  · intro tz fields an co av h1 h2 h3 h4
    simp [ObjectCondition.from_json, h1, h2, h3, h4]
  · intro tz fields hop hcond
    rw [ConditionList.from_json, treeChildren_of_no_conditions tz fields hcond]
    simp [operatorOf, hop, ConditionList.init, accepted_boolean_operators]
    decide

/-- C8 witness: the empty dictionary exercises both directions — as a
leaf it fails on the first missing key, as an internal node it decodes
to an empty "and" tree. -/
theorem C8_amended_decode_behavior_witness :
    ObjectCondition.from_json 0 [] = .error (.keyError "attribute_name") ∧
    ConditionList.from_json 0 [] = .ok (.tree "and" []) :=
  ⟨C8_amended_decode_behavior.1 0 [] rfl,
   C8_amended_decode_behavior.2.2.2.2 0 [] rfl rfl⟩

/-- C7.  `parse_datetime` follows the dual-format rule.  An input that
is all digits once its first decimal point is removed is read as a Unix
timestamp (fractional seconds allowed) and converted to local calendar
date-time (`fromtimestamp` with the local offset).  Otherwise an input
containing a dash and either containing a `T` or being exactly ten
characters long is parsed as ISO-8601, a bare ten-character date being
extended with `T00:00:00`; everything else fails.  Concretely,
"2022-06-01" parses to midnight, "2022-06-01T10:30:00" keeps the time
of day, and "1700000000" becomes the local timestamp — at offset zero,
2023-11-14 22:13:20 UTC. -/
theorem C7_parse_datetime_dual_format :
    (∀ (tz : Int) (s : String), isDigitString (removeFirstDot s.data) = true →
        parse_datetime tz s = .ok (fromtimestamp tz (decimalVal s.data))) ∧
    (∀ (tz : Int) (s : String), isDigitString (removeFirstDot s.data) = false →
        '-' ∈ s.data → s.data.length = 10 →
        parse_datetime tz s = fromisoformat (s ++ "T00:00:00")) ∧
    (∀ (tz : Int) (s : String), isDigitString (removeFirstDot s.data) = false →
        '-' ∈ s.data → 'T' ∈ s.data → s.data.length ≠ 10 →
        parse_datetime tz s = fromisoformat s) ∧
    (∀ (tz : Int) (s : String), isDigitString (removeFirstDot s.data) = false →
        ('-' ∉ s.data ∨ ('T' ∉ s.data ∧ s.data.length ≠ 10)) →
        parse_datetime tz s = .error .unrecognizedDateTimeFormat) ∧
    (∀ tz : Int, parse_datetime tz "2022-06-01" = .ok ⟨2022, 6, 1, 0, 0, 0, 0⟩) ∧
    (∀ tz : Int, parse_datetime tz "2022-06-01T10:30:00" = .ok ⟨2022, 6, 1, 10, 30, 0, 0⟩) ∧
    (∀ tz : Int, parse_datetime tz "1700000000" = .ok (fromtimestamp tz ⟨1700000000, 1⟩)) ∧
    parse_datetime 0 "1700000000" = .ok ⟨2023, 11, 14, 22, 13, 20, 0⟩ := by
  refine ⟨?_, ?_, ?_, ?_, fun tz => rfl, fun tz => rfl, fun tz => rfl, by decide⟩
  · intro tz s h
    unfold parse_datetime
    rw [if_pos h]
  · intro tz s h1 h2 h3
    unfold parse_datetime
    rw [if_neg (by simp [h1]), if_pos ⟨h2, Or.inr h3⟩, if_pos h3]
  · intro tz s h1 h2 h3 h4
    unfold parse_datetime
    rw [if_neg (by simp [h1]), if_pos ⟨h2, Or.inl h3⟩, if_neg h4]
  · intro tz s h1 h2
    unfold parse_datetime
    rw [if_neg (by simp [h1]), if_neg ?_]
    rintro ⟨hd, hTor⟩
    rcases h2 with h2 | ⟨h2, h3⟩
    · exact h2 hd
    · rcases hTor with hT | hlen
      · exact h2 hT
      · exact h3 hlen

/-- C7 witness: the digits-only input "5" takes the timestamp branch. -/
theorem C7_parse_datetime_dual_format_witness :
    parse_datetime 0 "5" = .ok (fromtimestamp 0 (decimalVal "5".data)) :=
  C7_parse_datetime_dual_format.1 0 "5" (by decide)

/-- The string-operator tuple is contained in the operator union. -/
theorem strings_subset_union :
    ∀ op : String, op ∈ accepted_comp_operators_strings → op ∈ accepted_comp_operators := by
  intro op h
  simp only [accepted_comp_operators_strings, List.mem_cons, List.not_mem_nil, or_false] at h
  rcases h with rfl | rfl | rfl | rfl <;> decide

/-- C6 (amended).  With the source's type tags ("str", "int", ...), the
legality table holds: for every accepted tag and every operator string,
construction of `Condition("age", op, "5", vt)` succeeds iff the pair
is in the table, and otherwise fails with one of the two
unsupported-operator raises; in particular the pair ("int", "in") fails
with the per-type unsupported-operator error.  (The spec's literal tag
"integer" is not accepted at all — see the counterexample.) -/
theorem C6_amended_legality_table :
    (∀ (vt op : String), vt ∈ accepted_value_types →
      ((∃ c, ObjectCondition.init 0 "age" op "5" vt = .ok c) ↔ specLegalPair vt op) ∧
      (¬ specLegalPair vt op →
        ObjectCondition.init 0 "age" op "5" vt = .error .unsupportedOperator ∨
        ObjectCondition.init 0 "age" op "5" vt = .error .unsupportedOperatorForType)) ∧
    ObjectCondition.init 0 "age" "in" "5" "int" = .error .unsupportedOperatorForType := by
  refine ⟨?_, by decide⟩
  intro vt op hvt
  have hvt6 : vt = "str" ∨ vt = "int" ∨ vt = "float" ∨ vt = "date" ∨ vt = "datetime" ∨
      vt = "time" := by
    simpa [accepted_value_types] using hvt
  rcases hvt6 with rfl | rfl | rfl | rfl | rfl | rfl
  · by_cases hs : op ∈ accepted_comp_operators_strings
    · have hop : op = "==" ∨ op = "!=" ∨ op = "in" ∨ op = "not in" := by
        simpa [accepted_comp_operators_strings] using hs
      rcases hop with rfl | rfl | rfl | rfl <;>
        exact ⟨⟨fun _ => by decide, fun _ => ⟨_, rfl⟩⟩, fun hn => absurd (by decide) hn⟩
    · have hnsp : ¬ specLegalPair "str" op := by
        intro hsp
        rcases hsp with ⟨_, hmem⟩ | ⟨hbad, _⟩
        · exact hs hmem
        · exact absurd hbad (by decide)
      by_cases hu : op ∈ accepted_comp_operators
      · have hinit : ObjectCondition.init 0 "age" op "5" "str" =
            .error .unsupportedOperatorForType := by
          unfold ObjectCondition.init
          rw [if_neg (by decide), if_neg (not_not_intro hu), if_pos rfl, if_pos hs]
        refine ⟨?_, fun _ => Or.inr hinit⟩
        rw [hinit]
        simp [hnsp]
      · have hinit : ObjectCondition.init 0 "age" op "5" "str" =
            .error .unsupportedOperator := by
          unfold ObjectCondition.init
          rw [if_neg (by decide), if_pos hu]
        refine ⟨?_, fun _ => Or.inl hinit⟩
        rw [hinit]
        simp [hnsp]
  · by_cases hs : op ∈ accepted_comp_operators_numbers
    · have hop : op = "<" ∨ op = ">" ∨ op = "<=" ∨ op = ">=" ∨ op = "==" ∨ op = "!=" := by
        simpa [accepted_comp_operators_numbers] using hs
      rcases hop with rfl | rfl | rfl | rfl | rfl | rfl <;>
        exact ⟨⟨fun _ => by decide, fun _ => ⟨_, rfl⟩⟩, fun hn => absurd (by decide) hn⟩
    · have hnsp : ¬ specLegalPair "int" op := by
        intro hsp
        rcases hsp with ⟨hbad, _⟩ | ⟨_, hmem⟩
        · exact absurd hbad (by decide)
        · exact hs hmem
      by_cases hu : op ∈ accepted_comp_operators
      · have hinit : ObjectCondition.init 0 "age" op "5" "int" =
            .error .unsupportedOperatorForType := by
          unfold ObjectCondition.init
          rw [if_neg (by decide), if_neg (not_not_intro hu), if_neg (by decide), if_pos rfl,
            if_pos hs]
        refine ⟨?_, fun _ => Or.inr hinit⟩
        rw [hinit]
        simp [hnsp]
      · have hinit : ObjectCondition.init 0 "age" op "5" "int" =
            .error .unsupportedOperator := by
          unfold ObjectCondition.init
          rw [if_neg (by decide), if_pos hu]
        refine ⟨?_, fun _ => Or.inl hinit⟩
        rw [hinit]
        simp [hnsp]
  · by_cases hs : op ∈ accepted_comp_operators_numbers
    · have hop : op = "<" ∨ op = ">" ∨ op = "<=" ∨ op = ">=" ∨ op = "==" ∨ op = "!=" := by
        simpa [accepted_comp_operators_numbers] using hs
      rcases hop with rfl | rfl | rfl | rfl | rfl | rfl <;>
        exact ⟨⟨fun _ => by decide, fun _ => ⟨_, rfl⟩⟩, fun hn => absurd (by decide) hn⟩
    · have hnsp : ¬ specLegalPair "float" op := by
        intro hsp
        rcases hsp with ⟨hbad, _⟩ | ⟨_, hmem⟩
        · exact absurd hbad (by decide)
        · exact hs hmem
      by_cases hu : op ∈ accepted_comp_operators
      · have hinit : ObjectCondition.init 0 "age" op "5" "float" =
            .error .unsupportedOperatorForType := by
          unfold ObjectCondition.init
          rw [if_neg (by decide), if_neg (not_not_intro hu), if_neg (by decide),
            if_neg (by decide), if_pos rfl, if_pos hs]
        refine ⟨?_, fun _ => Or.inr hinit⟩
        rw [hinit]
        simp [hnsp]
      · have hinit : ObjectCondition.init 0 "age" op "5" "float" =
            .error .unsupportedOperator := by
          unfold ObjectCondition.init
          rw [if_neg (by decide), if_pos hu]
        refine ⟨?_, fun _ => Or.inl hinit⟩
        rw [hinit]
        simp [hnsp]
  · by_cases hs : op ∈ accepted_comp_operators_numbers
    · have hop : op = "<" ∨ op = ">" ∨ op = "<=" ∨ op = ">=" ∨ op = "==" ∨ op = "!=" := by
        simpa [accepted_comp_operators_numbers] using hs
      rcases hop with rfl | rfl | rfl | rfl | rfl | rfl <;>
        exact ⟨⟨fun _ => by decide, fun _ => ⟨_, rfl⟩⟩, fun hn => absurd (by decide) hn⟩
    · have hnsp : ¬ specLegalPair "date" op := by
        intro hsp
        rcases hsp with ⟨hbad, _⟩ | ⟨_, hmem⟩
        · exact absurd hbad (by decide)
        · exact hs hmem
      by_cases hu : op ∈ accepted_comp_operators
      · have hinit : ObjectCondition.init 0 "age" op "5" "date" =
            .error .unsupportedOperatorForType := by
          unfold ObjectCondition.init
          rw [if_neg (by decide), if_neg (not_not_intro hu), if_neg (by decide),
            if_neg (by decide), if_neg (by decide), if_pos rfl, if_pos hs]
        refine ⟨?_, fun _ => Or.inr hinit⟩
        rw [hinit]
        simp [hnsp]
      · have hinit : ObjectCondition.init 0 "age" op "5" "date" =
            .error .unsupportedOperator := by
          unfold ObjectCondition.init
          rw [if_neg (by decide), if_pos hu]
        refine ⟨?_, fun _ => Or.inl hinit⟩
        rw [hinit]
        simp [hnsp]
  · by_cases hs : op ∈ accepted_comp_operators_numbers
    · have hop : op = "<" ∨ op = ">" ∨ op = "<=" ∨ op = ">=" ∨ op = "==" ∨ op = "!=" := by
        simpa [accepted_comp_operators_numbers] using hs
      rcases hop with rfl | rfl | rfl | rfl | rfl | rfl <;>
        exact ⟨⟨fun _ => by decide, fun _ => ⟨_, rfl⟩⟩, fun hn => absurd (by decide) hn⟩
    · have hnsp : ¬ specLegalPair "datetime" op := by
        intro hsp
        rcases hsp with ⟨hbad, _⟩ | ⟨_, hmem⟩
        · exact absurd hbad (by decide)
        · exact hs hmem
      by_cases hu : op ∈ accepted_comp_operators
      · have hinit : ObjectCondition.init 0 "age" op "5" "datetime" =
            .error .unsupportedOperatorForType := by
          unfold ObjectCondition.init
          rw [if_neg (by decide), if_neg (not_not_intro hu), if_neg (by decide),
            if_neg (by decide), if_neg (by decide), if_neg (by decide), if_neg (by decide),
            if_pos rfl, if_pos hs]
        refine ⟨?_, fun _ => Or.inr hinit⟩
        rw [hinit]
        simp [hnsp]
      · have hinit : ObjectCondition.init 0 "age" op "5" "datetime" =
            .error .unsupportedOperator := by
          unfold ObjectCondition.init
          rw [if_neg (by decide), if_pos hu]
        refine ⟨?_, fun _ => Or.inl hinit⟩
        rw [hinit]
        simp [hnsp]
  · by_cases hs : op ∈ accepted_comp_operators_numbers
    · have hop : op = "<" ∨ op = ">" ∨ op = "<=" ∨ op = ">=" ∨ op = "==" ∨ op = "!=" := by
        simpa [accepted_comp_operators_numbers] using hs
      rcases hop with rfl | rfl | rfl | rfl | rfl | rfl <;>
        exact ⟨⟨fun _ => by decide, fun _ => ⟨_, rfl⟩⟩, fun hn => absurd (by decide) hn⟩
    · have hnsp : ¬ specLegalPair "time" op := by
        intro hsp
        rcases hsp with ⟨hbad, _⟩ | ⟨_, hmem⟩
        · exact absurd hbad (by decide)
        · exact hs hmem
      by_cases hu : op ∈ accepted_comp_operators
      · have hinit : ObjectCondition.init 0 "age" op "5" "time" =
            .error .unsupportedOperatorForType := by
          unfold ObjectCondition.init
          rw [if_neg (by decide), if_neg (not_not_intro hu), if_neg (by decide),
            if_neg (by decide), if_neg (by decide), if_neg (by decide), if_pos rfl,
            if_pos hs]
        refine ⟨?_, fun _ => Or.inr hinit⟩
        rw [hinit]
        simp [hnsp]
      · have hinit : ObjectCondition.init 0 "age" op "5" "time" =
            .error .unsupportedOperator := by
          unfold ObjectCondition.init
          rw [if_neg (by decide), if_pos hu]
        refine ⟨?_, fun _ => Or.inl hinit⟩
        rw [hinit]
        simp [hnsp]

/-- C6 witness: the legal pair ("str", "==") constructs successfully
and sits in the table. -/
theorem C6_amended_legality_table_witness :
    ((∃ c, ObjectCondition.init 0 "age" "==" "5" "str" = .ok c) ↔ specLegalPair "str" "==") ∧
    (¬ specLegalPair "str" "==" →
      ObjectCondition.init 0 "age" "==" "5" "str" = .error .unsupportedOperator ∨
      ObjectCondition.init 0 "age" "==" "5" "str" = .error .unsupportedOperatorForType) :=
  C6_amended_legality_table.1 "str" "==" (by decide)
